import Mathlib

/-!
Shallow embedding of the MediPredict front end (React/JS) state handlers,
with theorems settling the frozen claims about them.

Each definition mirrors one handler or helper from the source:
  - DoctorDashboard (src/unnamed/part_000): updateStats, handleStatusUpdate
  - PredictionForm: the feature-vector construction in handleSubmit, the
    reset-on-disease-change effect, handleInputChange, handleDiseaseSelect
  - DoctorPatientChat: handleSendMessage, the new_message and user_typing
    socket handlers
  - PatientDashboard: loadPatientStats, handleTabChange
  - CaseReview (src/unnamed/part_002): the blank-entry filtering and
    callback policy of handleSubmit

External effects (HTTP responses, thrown exceptions, Math.random, Date) are
passed in as explicit parameters; the definitions compute exactly the state
transitions the handlers perform.
-/

/-- A consultation record as held in dashboard state
(id, patient_name, patient_email, requested_date, status, message,
chat_room_id, created_at). -/
structure Consultation where
  id : Nat
  patient_name : String
  patient_email : String
  requested_date : String
  status : String
  message : String
  chat_room_id : Option String
  created_at : String
deriving DecidableEq, Repr

/-- A pending medical case as listed in the doctor dashboard. -/
structure MedCase where
  id : Nat
  patient_name : String
  disease : String
  prediction : Nat
  risk_level : String
deriving DecidableEq, Repr

/-- The stats record set by DoctorDashboard.updateStats. -/
structure DocStats where
  totalPatients : Nat
  todayAppointments : Nat
  pendingReviews : Nat
  completedConsultations : Nat
deriving DecidableEq, Repr

/-- DoctorDashboard.updateStats.  `toDS` models the composite
`x => new Date(x).toDateString()` rendering of a date value as a
calendar-day string, and `today` models `new Date().toDateString()`. -/
def updateStats (toDS : String → String) (today : String)
    (consultations : List Consultation) (cases : List MedCase) : DocStats :=
  { totalPatients := consultations.length
    todayAppointments :=
      (consultations.filter (fun c => toDS c.requested_date = today)).length
    pendingReviews := cases.length
    completedConsultations :=
      (consultations.filter (fun c => c.status = "completed")).length }

/-- Outcome of an awaited API call: the response reported success, the
response reported failure, or the call threw (network error). -/
inductive ApiOutcome where
  | ok
  | fail
  | thrown
deriving DecidableEq, Repr

/-- DoctorDashboard.handleStatusUpdate (the same patch appears in
ConsultationManager.handleStatusUpdate): on a successful response the local
list is mapped, patching the status of the record whose id matches; on a
failed response nothing happens; a thrown error is caught and logged,
leaving the list as it was. -/
def handleStatusUpdate (consultations : List Consultation) (cid : Nat)
    (newStatus : String) (resp : ApiOutcome) : List Consultation :=
  match resp with
  | ApiOutcome.ok =>
      consultations.map (fun c =>
        if c.id = cid then { c with status := newStatus } else c)
  | ApiOutcome.fail => consultations
  | ApiOutcome.thrown => consultations

/-- Sample consultation used by concrete witnesses. -/
def sampleConsultation : Consultation :=
  { id := 1
    patient_name := "Alice"
    patient_email := "alice@example.com"
    requested_date := "2025-01-01"
    status := "pending"
    message := "hello"
    chat_room_id := some "room1"
    created_at := "2024-12-30" }

/-- One input-field descriptor from the disease catalog, as used by
PredictionForm (only the name keys the form-data map; the label is shown). -/
structure DiseaseField where
  name : String
  label : String
deriving DecidableEq, Repr

/-- Value of a decimal-digit list read most significant first. -/
def digitsToNat (ds : List Char) : Nat :=
  ds.foldl (fun n c => 10 * n + (c.toNat - 48)) 0

/-- A JavaScript number as parseFloat can produce: a finite value or one
of the two infinities.  A finite value is kept exact as a rational rather
than rounded to the nearest IEEE-754 double; the properties under test
depend only on finiteness, field order and the zero default, which exact
values preserve.  NaN is represented as none at the parse layer. -/
inductive JSNum where
  | finite (q : ℚ)
  | posInf
  | negInf
deriving DecidableEq, Repr

/-- Whether a JavaScript number is finite (neither infinity). -/
def JSNum.isFinite : JSNum → Bool
  | JSNum.finite _ => true
  | JSNum.posInf => false
  | JSNum.negInf => false

/-- The smallest magnitude that IEEE-754 round-to-nearest-even sends to an
infinity: 2 ^ 1024 - 2 ^ 970. -/
def ieeeOverflowNat : Nat := 2 ^ 1024 - 2 ^ 970

/-- Whether the exact magnitude mant / 10 ^ fracLen * 10 ^ exp of a parsed
decimal literal reaches the double rounding-to-infinity boundary, tested
in integer arithmetic. -/
def decimalOverflows (mant fracLen : Nat) (exp : Int) : Bool :=
  match exp with
  | Int.ofNat e => ieeeOverflowNat * 10 ^ fracLen ≤ mant * 10 ^ e
  | Int.negSucc e => ieeeOverflowNat * 10 ^ fracLen * 10 ^ (e + 1) ≤ mant

/-- Assemble the number parseFloat returns from sign, integer digits,
fraction digits and decimal exponent: a magnitude at or past the double
overflow boundary becomes the signed infinity, anything else stays finite
and exact. -/
def mkJSNum (neg : Bool) (intDs fracDs : List Char) (exp : Int) : JSNum :=
  let mant := digitsToNat intDs * 10 ^ fracDs.length + digitsToNat fracDs
  if decimalOverflows mant fracDs.length exp then
    if neg then JSNum.negInf else JSNum.posInf
  else
    JSNum.finite
      ((if neg then (-1 : ℚ) else 1) *
        ((mant : ℚ) / (10 : ℚ) ^ fracDs.length) * (10 : ℚ) ^ exp)

/-- Exponent suffix of a JS decimal literal: optional sign then digits; an
e with no following digits contributes nothing, since parseFloat stops
reading before it. -/
def readExponent (cs : List Char) : Int :=
  let signRest : Int × List Char :=
    match cs with
    | '-' :: rest => (-1, rest)
    | '+' :: rest => (1, rest)
    | _ => (1, cs)
  let ds := (signRest.2.span Char.isDigit).1
  if ds.isEmpty then 0 else signRest.1 * (digitsToNat ds : Int)

/-- Model of the JavaScript parseFloat builtin on the strings a form
control produces: skip leading whitespace, optional sign, then either the
Infinity literal or a decimal literal digits [. digits] [e [sign] digits];
none when no digits are found (parseFloat returns NaN there).  Values are
rounded only at the extremes: a magnitude past the IEEE-754 double
overflow boundary becomes the signed infinity. -/
def jsParseFloat (s : String) : Option JSNum :=
  let cs := s.data.dropWhile Char.isWhitespace
  let negRest : Bool × List Char :=
    match cs with
    | '-' :: rest => (true, rest)
    | '+' :: rest => (false, rest)
    | _ => (false, cs)
  match negRest.2 with
  | 'I' :: 'n' :: 'f' :: 'i' :: 'n' :: 'i' :: 't' :: 'y' :: _ =>
      some (if negRest.1 then JSNum.negInf else JSNum.posInf)
  | body =>
      let intSpan := body.span Char.isDigit
      let fracSpan : List Char × List Char :=
        match intSpan.2 with
        | '.' :: r2 => ((r2.span Char.isDigit).1, (r2.span Char.isDigit).2)
        | _ => ([], intSpan.2)
      if intSpan.1.isEmpty && fracSpan.1.isEmpty then none
      else
        let exp : Int :=
          match fracSpan.2 with
          | 'e' :: r3 => readExponent r3
          | 'E' :: r3 => readExponent r3
          | _ => 0
        some (mkJSNum negRest.1 intSpan.1 fracSpan.1 exp)

/-- The coercion applied per field in PredictionForm.handleSubmit:
parseFloat(value) followed by OR with 0.  A missing value (undefined)
parses to NaN; NaN and zero are falsy and map to 0, and every other value
is kept — the infinities included, which are truthy. -/
def numValue (v : Option String) : JSNum :=
  match v with
  | none => JSNum.finite 0
  | some s =>
      match jsParseFloat s with
      | none => JSNum.finite 0
      | some n => n

/-- The feature-vector construction of PredictionForm.handleSubmit:
`currentDisease.fields.map(field => parseFloat(formData[field.name]) || 0)`.
The form-data object is an association list with unique keys. -/
def buildFeatures (fields : List DiseaseField)
    (formData : List (String × String)) : List JSNum :=
  fields.map (fun f => numValue (List.lookup f.name formData))

/-- The prediction payload stored on success
(prediction, confidence, risk_level, model_type). -/
structure PredictionData where
  prediction : Nat
  confidence : ℚ
  risk_level : String
  model_type : String
deriving DecidableEq, Repr

/-- Local state of PredictionForm relevant to the claims. -/
structure PredFormState where
  selectedDisease : String
  formData : List (String × String)
  predictionResult : Option PredictionData
  error : Option String
deriving DecidableEq, Repr

/-- JavaScript object update `{...prev, [k]: v}` on an association list
with unique keys: replace the value in place if the key exists, append
otherwise. -/
def objSet (m : List (String × String)) (k v : String) :
    List (String × String) :=
  if m.any (fun p => p.1 == k) then
    m.map (fun p => if p.1 == k then (k, v) else p)
  else m ++ [(k, v)]

/-- PredictionForm.handleInputChange: record the raw value under the field
name. -/
def handleInputChange (st : PredFormState) (fieldName value : String) :
    PredFormState :=
  { st with formData := objSet st.formData fieldName value }

/-- PredictionForm.handleDiseaseSelect together with the
`useEffect(..., [selectedDisease])` reset: setting the same disease again
does not change the state (React bails out and the effect does not rerun),
while a genuine change empties the form data and clears result and error. -/
def handleDiseaseSelect (st : PredFormState) (disease : String) :
    PredFormState :=
  if disease = st.selectedDisease then st
  else
    { st with
        selectedDisease := disease
        formData := []
        predictionResult := none
        error := none }

/-- A chat message record as listed by DoctorPatientChat. -/
structure ChatMessage where
  id : Nat
  sender_id : Nat
  content : String
  message_type : String
  file_url : Option String
  timestamp : String
deriving DecidableEq, Repr

/-- Payload of a user_typing socket event. -/
structure TypingData where
  user_id : Nat
  typing : Bool
deriving DecidableEq, Repr

/-- Local state of DoctorPatientChat relevant to the claims. -/
structure ChatState where
  messages : List ChatMessage
  newMessage : String
  isTyping : Bool
  typingUsers : List TypingData
  onlineUsers : List Nat
deriving DecidableEq, Repr

/-- JavaScript truthiness of consultation.chat_room_id: absent (undefined
or null) and the empty string are both falsy. -/
def hasRoom (roomId : Option String) : Bool :=
  match roomId with
  | none => false
  | some r => !(r == "")

/-- DoctorPatientChat.handleSendMessage.  Returns the new component state
together with whether the send endpoint was called.  The guard
`if (!newMessage.trim() || !consultation.chat_room_id) return` makes the
handler a complete no-op on whitespace-only input or a missing room; on a
successful send the input is cleared and handleTyping(false) resets the
local typing flag; a failed or thrown send changes no state. -/
def handleSendMessage (st : ChatState) (roomId : Option String)
    (outcome : ApiOutcome) : ChatState × Bool :=
  if st.newMessage.trim == "" || !(hasRoom roomId) then (st, false)
  else
    match outcome with
    | ApiOutcome.ok => ({ st with newMessage := "", isTyping := false }, true)
    | ApiOutcome.fail => (st, true)
    | ApiOutcome.thrown => (st, true)

/-- The new_message socket handler:
`setMessages(prev => [...prev, message])`. -/
def onNewMessage (st : ChatState) (m : ChatMessage) : ChatState :=
  { st with messages := st.messages ++ [m] }

/-- The user_typing socket handler: events about the local user are
ignored; a typing=true event from a remote user replaces any existing
entry for that user id (filter then append); a typing=false event removes
every entry for that user id. -/
def onUserTyping (myId : Nat) (prev : List TypingData) (d : TypingData) :
    List TypingData :=
  if d.user_id = myId then prev
  else if d.typing then
    prev.filter (fun u => u.user_id ≠ d.user_id) ++ [d]
  else
    prev.filter (fun u => u.user_id ≠ d.user_id)

/-- Folding a sequence of user_typing events over an initially empty
typing-user list. -/
def applyTypingEvents (myId : Nat) (evs : List TypingData) :
    List TypingData :=
  List.foldl (onUserTyping myId) [] evs

/-- The invariant of the typing-user list: it never holds the local user,
and holds at most one entry per user id. -/
def typingInv (myId : Nat) (l : List TypingData) : Prop :=
  (∀ u ∈ l, u.user_id ≠ myId) ∧
    List.Pairwise (fun a b => a.user_id ≠ b.user_id) l

/-- Sample chat state with a nonblank draft, used by concrete witnesses. -/
def sampleChatState : ChatState :=
  { messages := []
    newMessage := "hello doctor"
    isTyping := true
    typingUsers := []
    onlineUsers := [] }

/-- Sample field schema used by concrete witnesses. -/
def sampleFields : List DiseaseField :=
  [{ name := "hemoglobin", label := "Hemoglobin" },
   { name := "mcv", label := "MCV" }]

/-- Sample form data used by concrete witnesses. -/
def sampleFormData : List (String × String) :=
  [("hemoglobin", "12.5")]

/-- The patient stats record displayed by PatientDashboard. -/
structure PatientStats where
  totalPredictions : Nat
  consultations : Nat
  lastCheckup : String
  totalModels : Nat
  favoriteModel : String
deriving DecidableEq, Repr

/-- The initial stats state of PatientDashboard. -/
def initialPatientStats : PatientStats :=
  { totalPredictions := 0
    consultations := 0
    lastCheckup := "Never"
    totalModels := 5
    favoriteModel := "Loading..." }

/-- The mock statistics PatientDashboard.loadPatientStats builds when the
stats API fails: r1, r2 and r3 stand for the Math.random draws and
dateStr for the rendered random recent date. -/
def mockPatientStats (r1 r2 r3 : Nat) (dateStr : String) : PatientStats :=
  { totalPredictions := r1 % 15 + 1
    consultations := r2 % 5
    lastCheckup := dateStr
    totalModels := 5
    favoriteModel :=
      List.getD ["Anemia Detection", "Diabetes Prediction", "Heart Disease"]
        (r3 % 3) "" }

/-- Outcome of the getPatientStats call: success with a stats payload, an
unsuccessful response, or a thrown error. -/
inductive StatsFetch where
  | ok (s : PatientStats)
  | failResp
  | thrown
deriving DecidableEq, Repr

/-- PatientDashboard.loadPatientStats: a successful response installs the
fetched stats; an unsuccessful response or a thrown API error is caught,
logged, and falls through to installing the mock statistics (the prior
stats value is overwritten, not kept). -/
def loadPatientStats (prev : PatientStats) (fetch : StatsFetch)
    (r1 r2 r3 : Nat) (dateStr : String) : PatientStats :=
  match prev, fetch with
  | _, StatsFetch.ok s => s
  | _, StatsFetch.failResp => mockPatientStats r1 r2 r3 dateStr
  | _, StatsFetch.thrown => mockPatientStats r1 r2 r3 dateStr

/-- Local state of PatientDashboard relevant to the claims. -/
structure DashState where
  activeTab : String
  currentResult : Option PredictionData
  stats : PatientStats
  loading : Bool
  statsLoading : Bool
deriving DecidableEq, Repr

/-- PatientDashboard.handleTabChange: `setActiveTab(tabId)` always, and
`setCurrentResult(null)` exactly when the target tab is not the predict
tab. -/
def handleTabChange (st : DashState) (tabId : String) : DashState :=
  let st1 := { st with activeTab := tabId }
  if tabId ≠ "predict" then { st1 with currentResult := none } else st1

/-- The CaseReview form record. -/
structure ReviewForm where
  diagnosis : String
  severity : String
  recommendations : List String
  follow_up_required : Bool
  medications : List String
  lifestyle_changes : List String
deriving DecidableEq, Repr

/-- The blank-entry filtering applied by CaseReview.handleSubmit before
posting: every entry whose trimmed value is empty (falsy) is removed from
the three list fields. -/
def cleanReviewForm (f : ReviewForm) : ReviewForm :=
  { f with
      recommendations := f.recommendations.filter (fun r => r.trim ≠ "")
      medications := f.medications.filter (fun m => m.trim ≠ "")
      lifestyle_changes := f.lifestyle_changes.filter (fun l => l.trim ≠ "") }

/-- CaseReview.handleSubmit: the first component is the form posted to the
review endpoint (the cleaned form), the second is whether the onReviewed
parent callback runs, which the code does exactly on a successful
response. -/
def handleReviewSubmit (f : ReviewForm) (outcome : ApiOutcome) :
    ReviewForm × Bool :=
  (cleanReviewForm f,
    match outcome with
    | ApiOutcome.ok => true
    | ApiOutcome.fail => false
    | ApiOutcome.thrown => false)

/-- Claim C1: for every list of consultations passed to the doctor
dashboard stats computation, the computed todayAppointments counter equals
the number of consultations whose requested_date, rendered as a
calendar-day date string, equals the current calendar-day date string. -/
theorem updateStats_todayAppointments (toDS : String → String) (today : String)
    (consultations : List Consultation) (cases : List MedCase) :
    (updateStats toDS today consultations cases).todayAppointments =
      consultations.countP (fun c => toDS c.requested_date = today) := by
  simp [updateStats, List.countP_eq_length_filter]

/-- Claim C2: a successful status update patches exactly the consultation
with the given id (its status becomes the requested new status, every other
consultation is unchanged, the length is preserved), while a failed or
thrown update leaves the whole list exactly as it was. -/
theorem handleStatusUpdate_spec (l : List Consultation) (cid : Nat)
    (s : String) (i : Nat) (h : i < l.length) :
    handleStatusUpdate l cid s ApiOutcome.fail = l ∧
    handleStatusUpdate l cid s ApiOutcome.thrown = l ∧
    (handleStatusUpdate l cid s ApiOutcome.ok).length = l.length ∧
    (handleStatusUpdate l cid s ApiOutcome.ok).get
        ⟨i, by simpa [handleStatusUpdate] using h⟩ =
      (if (l.get ⟨i, h⟩).id = cid then { l.get ⟨i, h⟩ with status := s }
       else l.get ⟨i, h⟩) := by
  refine ⟨rfl, rfl, by simp [handleStatusUpdate], ?_⟩
  simp [handleStatusUpdate]

/-- Witness for C2 at a concrete one-element list and index 0. -/
theorem handleStatusUpdate_spec_witness :
    handleStatusUpdate [sampleConsultation] 1 "confirmed" ApiOutcome.fail =
      [sampleConsultation] :=
  (handleStatusUpdate_spec [sampleConsultation] 1 "confirmed" 0 (by decide)).1

set_option maxRecDepth 8000 in
/-- Counterexample to claim C3 as stated: a submission whose stored field
value is the overflowing decimal 1e400 — exponent-notation input a number
control accepts, which parseFloat returns as Infinity, a truthy value the
OR-with-0 default keeps — produces a feature entry of positive infinity,
so not every entry sent to the prediction endpoint is finite. -/
theorem buildFeatures_infinity_entry :
    buildFeatures [{ name := "hemoglobin", label := "Hemoglobin" }]
        [("hemoglobin", "1e400")] = [JSNum.posInf] ∧
    JSNum.isFinite JSNum.posInf = false :=
  ⟨by decide, rfl⟩

theorem numValue_not_finite (v : Option String)
    (h : JSNum.isFinite (numValue v) = false) :
    ∃ s, v = some s ∧ jsParseFloat s = some (numValue v) := by
  cases v with
  | none => simp [numValue, JSNum.isFinite] at h
  | some s =>
      refine ⟨s, rfl, ?_⟩
      cases hp : jsParseFloat s with
      | none => simp [numValue, hp, JSNum.isFinite] at h
      | some n => simp [numValue, hp]

/-- Claim C3 as amended: the feature vector built on submission has the
length of the selected disease field schema, its i-th entry is the numeric
coercion of the form value stored under the i-th field name, a missing or
unparseable value yields exactly 0 at that position, and a non-finite
entry arises exactly when the JS parse of the stored string itself returns
an infinity (an Infinity literal or an overflowing decimal). -/
theorem buildFeatures_spec (fields : List DiseaseField)
    (formData : List (String × String)) (i : Nat) (h : i < fields.length) :
    (buildFeatures fields formData).length = fields.length ∧
    (buildFeatures fields formData).get
        ⟨i, by simpa [buildFeatures] using h⟩ =
      numValue (List.lookup (fields.get ⟨i, h⟩).name formData) ∧
    (List.lookup (fields.get ⟨i, h⟩).name formData = none →
      (buildFeatures fields formData).get
        ⟨i, by simpa [buildFeatures] using h⟩ = JSNum.finite 0) ∧
    (∀ s, List.lookup (fields.get ⟨i, h⟩).name formData = some s →
      jsParseFloat s = none →
      (buildFeatures fields formData).get
        ⟨i, by simpa [buildFeatures] using h⟩ = JSNum.finite 0) ∧
    (JSNum.isFinite ((buildFeatures fields formData).get
        ⟨i, by simpa [buildFeatures] using h⟩) = false →
      ∃ s, List.lookup (fields.get ⟨i, h⟩).name formData = some s ∧
        jsParseFloat s =
          some ((buildFeatures fields formData).get
            ⟨i, by simpa [buildFeatures] using h⟩)) := by
  refine ⟨by simp [buildFeatures], by simp [buildFeatures], ?_, ?_, ?_⟩
  · intro hnone
    simp only [List.get_eq_getElem] at hnone
    simp [buildFeatures, hnone, numValue]
  · intro s hs hparse
    simp only [List.get_eq_getElem] at hs
    simp [buildFeatures, hs, numValue, hparse]
  · intro hinf
    simp only [List.get_eq_getElem, buildFeatures, List.getElem_map]
      at hinf ⊢
    exact numValue_not_finite _ hinf

/-- Witness for C3 at a concrete two-field schema and index 0. -/
theorem buildFeatures_spec_witness :
    (buildFeatures sampleFields sampleFormData).length =
      sampleFields.length :=
  (buildFeatures_spec sampleFields sampleFormData 0 (by decide)).1

theorem handleDiseaseSelect_selected (s : PredFormState) (d : String) :
    (handleDiseaseSelect s d).selectedDisease = d := by
  unfold handleDiseaseSelect
  by_cases hd : d = s.selectedDisease
  · rw [if_pos hd]; exact hd.symm
  · rw [if_neg hd]

theorem handleDiseaseSelect_reset (s : PredFormState) (d : String)
    (h : d ≠ s.selectedDisease) :
    (handleDiseaseSelect s d).formData = [] := by
  unfold handleDiseaseSelect
  rw [if_neg h]

/-- Claim C4: selecting disease A, entering any sequence of field values,
switching to a different disease B, then selecting A again leaves the
per-field value map empty: the reset effect fires on each genuine disease
change, so no value entered under A survives the B interlude. -/
theorem disease_roundtrip_resets_form (st : PredFormState) (a b : String)
    (vals : List (String × String)) (hne : b ≠ a) :
    (handleDiseaseSelect
      (handleDiseaseSelect
        (List.foldl (fun s p => handleInputChange s p.1 p.2)
          (handleDiseaseSelect st a) vals)
        b)
      a).formData = [] := by
  apply handleDiseaseSelect_reset
  rw [handleDiseaseSelect_selected]
  exact fun hab => hne hab.symm

/-- Claim C5: with whitespace-only (or empty) input, or with no chat room
id, handleSendMessage makes no endpoint call and changes no state; with
non-whitespace input and a known room id, a successful send clears the
input and resets the local typing flag. -/
theorem handleSendMessage_spec (st : ChatState) (roomId : Option String)
    (outcome : ApiOutcome) :
    (st.newMessage.trim = "" →
      handleSendMessage st roomId outcome = (st, false)) ∧
    (roomId = none → handleSendMessage st roomId outcome = (st, false)) ∧
    (∀ r, roomId = some r → r ≠ "" → st.newMessage.trim ≠ "" →
      outcome = ApiOutcome.ok →
      (handleSendMessage st roomId outcome).1.messages = st.messages ∧
      (handleSendMessage st roomId outcome).1.newMessage = "" ∧
      (handleSendMessage st roomId outcome).1.isTyping = false ∧
      (handleSendMessage st roomId outcome).1.typingUsers = st.typingUsers ∧
      (handleSendMessage st roomId outcome).2 = true) := by
  refine ⟨?_, ?_, ?_⟩
  · intro h
    simp [handleSendMessage, h]
  · intro h
    subst h
    simp [handleSendMessage, hasRoom]
  · intro r hr hne hmsg hok
    subst hr
    subst hok
    simp [handleSendMessage, hasRoom, hmsg, hne]

/-- Witness for C5 at a missing chat room id. -/
theorem handleSendMessage_spec_witness :
    handleSendMessage sampleChatState none ApiOutcome.ok =
      (sampleChatState, false) :=
  (handleSendMessage_spec sampleChatState none ApiOutcome.ok).2.1 rfl

/-- Claim C6: the send path never touches the message list, whatever the
outcome; a message is appended only by the new_message event handler. -/
theorem send_never_appends_messages (st : ChatState)
    (roomId : Option String) (outcome : ApiOutcome) (m : ChatMessage) :
    (handleSendMessage st roomId outcome).1.messages = st.messages ∧
    (onNewMessage st m).messages = st.messages ++ [m] := by
  constructor
  · unfold handleSendMessage
    split
    · rfl
    · cases outcome <;> rfl
  · rfl

theorem onUserTyping_preserves (myId : Nat) (l : List TypingData)
    (d : TypingData) (h : typingInv myId l) :
    typingInv myId (onUserTyping myId l d) := by
  obtain ⟨h1, h2⟩ := h
  unfold onUserTyping
  by_cases hid : d.user_id = myId
  · rw [if_pos hid]; exact ⟨h1, h2⟩
  · rw [if_neg hid]
    by_cases ht : d.typing = true
    · rw [if_pos ht]
      constructor
      · intro u hu
        rcases List.mem_append.mp hu with h' | h'
        · exact h1 u (List.mem_of_mem_filter h')
        · rw [List.mem_singleton.mp h']; exact hid
      · rw [List.pairwise_append]
        refine ⟨h2.sublist (List.filter_sublist _),
          List.pairwise_singleton _ _, ?_⟩
        intro a ha b hb
        obtain rfl := List.mem_singleton.mp hb
        simpa using List.of_mem_filter ha
    · rw [if_neg ht]
      exact ⟨fun u hu => h1 u (List.mem_of_mem_filter hu),
        h2.sublist (List.filter_sublist _)⟩

theorem applyTypingEvents_inv (myId : Nat) (evs : List TypingData) :
    typingInv myId (applyTypingEvents myId evs) := by
  have aux : ∀ (es : List TypingData) (acc : List TypingData),
      typingInv myId acc →
      typingInv myId (List.foldl (onUserTyping myId) acc es) := by
    intro es
    induction es with
    | nil => intro acc h; exact h
    | cons e rest ih =>
        intro acc h
        exact ih _ (onUserTyping_preserves myId acc e h)
  exact aux evs []
    ⟨fun u hu => absurd hu (List.not_mem_nil u), List.Pairwise.nil⟩

/-- Claim C9: over any sequence of user_typing events applied to an
initially empty list, the typing-user list never contains the local user
and has at most one entry per user id; a typing=true event from a remote
user replaces any entry for that user, and a typing=false event removes
every entry for that user. -/
theorem user_typing_invariant (myId : Nat) (evs : List TypingData)
    (l : List TypingData) (d : TypingData) (hd : d.user_id ≠ myId) :
    typingInv myId (applyTypingEvents myId evs) ∧
    (d.typing = true →
      d ∈ onUserTyping myId l d ∧
      ∀ u ∈ onUserTyping myId l d, u.user_id = d.user_id → u = d) ∧
    (d.typing = false →
      ∀ u ∈ onUserTyping myId l d, u.user_id ≠ d.user_id) := by
  refine ⟨applyTypingEvents_inv myId evs, ?_, ?_⟩
  · intro ht
    unfold onUserTyping
    rw [if_neg hd, if_pos ht]
    constructor
    · exact List.mem_append_right _ (List.mem_singleton_self d)
    · intro u hu hu_id
      rcases List.mem_append.mp hu with h' | h'
      · have hne := List.of_mem_filter h'
        simp at hne
        exact absurd hu_id hne
      · exact List.mem_singleton.mp h'
  · intro ht
    unfold onUserTyping
    rw [if_neg hd, if_neg (by simp [ht])]
    intro u hu
    simpa using List.of_mem_filter hu

/-- Witness for C9 at a concrete remote typing event. -/
theorem user_typing_invariant_witness :
    typingInv 1 (applyTypingEvents 1 [{ user_id := 2, typing := true }]) :=
  (user_typing_invariant 1 [{ user_id := 2, typing := true }] []
    { user_id := 2, typing := true } (by decide)).1

/-- Counterexample to C7 as stated: with the initial stats in place, a
thrown stats fetch does not leave the stats unchanged — the handler
installs mock statistics instead (totalPredictions becomes at least 1,
while the initial value is 0). -/
theorem loadPatientStats_changes_stats :
    loadPatientStats initialPatientStats StatsFetch.thrown 0 0 0 "1/1/2025" ≠
      initialPatientStats := by
  decide

/-- Claim C7 as amended: a failed or thrown stats fetch is caught and
logged with no user-facing error, but the displayed stats are not left
unchanged — they are replaced by locally generated mock statistics, whose
totalPredictions lies in 1..15, consultations in 0..4, and lastCheckup is
the rendered random recent date; only a successful fetch installs the
fetched stats. -/
theorem loadPatientStats_mock_on_failure (prev : PatientStats)
    (r1 r2 r3 : Nat) (dateStr : String) (s : PatientStats) :
    loadPatientStats prev (StatsFetch.ok s) r1 r2 r3 dateStr = s ∧
    loadPatientStats prev StatsFetch.failResp r1 r2 r3 dateStr =
      mockPatientStats r1 r2 r3 dateStr ∧
    loadPatientStats prev StatsFetch.thrown r1 r2 r3 dateStr =
      mockPatientStats r1 r2 r3 dateStr ∧
    1 ≤ (mockPatientStats r1 r2 r3 dateStr).totalPredictions ∧
    (mockPatientStats r1 r2 r3 dateStr).totalPredictions ≤ 15 ∧
    (mockPatientStats r1 r2 r3 dateStr).consultations ≤ 4 ∧
    (mockPatientStats r1 r2 r3 dateStr).lastCheckup = dateStr := by
  refine ⟨rfl, rfl, rfl, ?_, ?_, ?_, rfl⟩
  · simp [mockPatientStats]
  · simp only [mockPatientStats]
    omega
  · simp only [mockPatientStats]
    omega

/-- Claim C8: the posted review form has its three list fields equal to
the entered lists with blank-trim entries removed, order preserved (each
posted list is a sublist of the entered one), the scalar fields are
untouched, and the parent completion callback runs exactly on a successful
response. -/
theorem handleReviewSubmit_spec (f : ReviewForm) (outcome : ApiOutcome) :
    (handleReviewSubmit f outcome).1.recommendations =
      f.recommendations.filter (fun r => r.trim ≠ "") ∧
    (handleReviewSubmit f outcome).1.medications =
      f.medications.filter (fun m => m.trim ≠ "") ∧
    (handleReviewSubmit f outcome).1.lifestyle_changes =
      f.lifestyle_changes.filter (fun l => l.trim ≠ "") ∧
    List.Sublist (handleReviewSubmit f outcome).1.recommendations
      f.recommendations ∧
    List.Sublist (handleReviewSubmit f outcome).1.medications
      f.medications ∧
    List.Sublist (handleReviewSubmit f outcome).1.lifestyle_changes
      f.lifestyle_changes ∧
    (handleReviewSubmit f outcome).1.diagnosis = f.diagnosis ∧
    (handleReviewSubmit f outcome).1.severity = f.severity ∧
    ((handleReviewSubmit f outcome).2 = true ↔ outcome = ApiOutcome.ok) := by
  refine ⟨rfl, rfl, rfl, List.filter_sublist _, List.filter_sublist _,
    List.filter_sublist _, rfl, rfl, ?_⟩
  cases outcome <;> simp [handleReviewSubmit]

/-- Claim C10: the tab-switch handler sets the active tab to the target
id, clears the current prediction result exactly when the target is not
the predict tab, and leaves stats and both loading flags untouched. -/
theorem handleTabChange_spec (st : DashState) (tabId : String) :
    (handleTabChange st tabId).activeTab = tabId ∧
    (handleTabChange st tabId).currentResult =
      (if tabId = "predict" then st.currentResult else none) ∧
    (handleTabChange st tabId).stats = st.stats ∧
    (handleTabChange st tabId).loading = st.loading ∧
    (handleTabChange st tabId).statsLoading = st.statsLoading := by
  unfold handleTabChange
  by_cases h : tabId = "predict" <;> simp [h]

/-- Witness for C4 at concrete diseases and a concrete entry sequence. -/
theorem disease_roundtrip_resets_form_witness :
    (handleDiseaseSelect
      (handleDiseaseSelect
        (List.foldl (fun s p => handleInputChange s p.1 p.2)
          (handleDiseaseSelect
            { selectedDisease := "anemia", formData := [],
              predictionResult := none, error := none } "anemia")
          [("hemoglobin", "12.5"), ("mcv", "88")])
        "diabetes")
      "anemia").formData = [] :=
  disease_roundtrip_resets_form
    { selectedDisease := "anemia", formData := [],
      predictionResult := none, error := none }
    "anemia" "diabetes" [("hemoglobin", "12.5"), ("mcv", "88")]
    (by decide)
